import Mathlib

/-!
Verification development for the CyberSentinel real-time detection pipeline.

Shallow embedding of:
- `src/realtime/feature_extractor.py` (`extract_features`, `normalize_time_of_day`,
  `_normalize_protocol`, `safe_int`)
- `src/realtime/detection_engine.py` (`DetectionEngine._run`, `_handle_mitigation`,
  `_log_alert`, `stop`)
- `src/realtime/packet_sniffer.py` (`start_sniff` pcap branch, `_scapy_to_dict`)
- the channel construction in `src/dashboard/app.py` (`pkt_q = queue.Queue()`)
  together with Python's `queue.Queue` capacity semantics.

Python dynamic values are modelled by `PyVal`; packet dictionaries by association
lists `PyDict`.  Python floats are modelled exactly as rationals (no claim here
depends on binary floating point rounding).  Raising an uncaught exception is
modelled by `Except.error` (for pure functions) or an explicit `crashed` flag
(for the consumer loop, whose uncaught exceptions kill the engine thread).
-/

/-- A Python runtime value, restricted to the shapes that flow through the
pipeline: `None`, bools, ints, floats (modelled as rationals) and strings. -/
inductive PyVal where
  | vNone
  | vBool (b : Bool)
  | vInt (n : Int)
  | vRat (q : ℚ)
  | vStr (s : String)
deriving DecidableEq

/-- Python truthiness (`bool(x)`): `None` and empty/zero values are falsy. -/
def PyVal.truthy : PyVal → Bool
  | .vNone => false
  | .vBool b => b
  | .vInt n => n != 0
  | .vRat q => q != 0
  | .vStr s => s.length != 0

/-- Python `str(x)` on the modelled values.  (The textual form of a float is
not bit-faithful to CPython's repr; no claim depends on it.) -/
def pyStr : PyVal → String
  | .vNone => "None"
  | .vBool b => if b then "True" else "False"
  | .vInt n => toString n
  | .vRat q => toString q.num ++ "/" ++ toString q.den
  | .vStr s => s

/-- A Python dict with string keys, as an association list (keys assumed
distinct, as throughout the source). -/
def PyDict := List (String × PyVal)

instance : DecidableEq PyDict := by
  unfold PyDict
  infer_instance

/-- Python `d.get(k, default)`. -/
def pktGet (pkt : PyDict) (k : String) (default : PyVal) : PyVal :=
  (List.lookup k pkt).getD default

/-- Python `int(x)` where it succeeds: ints pass through, bools are 0/1,
floats truncate toward zero, parseable integer strings parse; `None` and
non-numeric strings fail. -/
def pyInt? : PyVal → Option Int
  | .vNone => none
  | .vBool b => some (if b then 1 else 0)
  | .vInt n => some n
  | .vRat q => some (q.num.tdiv (q.den : Int))
  | .vStr s => s.toInt?

/-- `feature_extractor.safe_int`: `int(x)`, defaulting to 0 on any exception. -/
def safe_int (x : PyVal) : Int :=
  (pyInt? x).getD 0

/-- Python `a in b` on strings (substring containment). -/
def strContains (b a : String) : Bool :=
  decide (a.toList <:+: b.toList)

/-- `feature_extractor._normalize_protocol`: falsy input maps to `"OTHER"`;
otherwise uppercase the `str()` form and do case-insensitive substring match
against TCP/UDP/ICMP, in that order. -/
def normalize_protocol (proto_raw : PyVal) : String :=
  if !proto_raw.truthy then "OTHER"
  else
    let p := (pyStr proto_raw).toUpper
    if strContains p "TCP" then "TCP"
    else if strContains p "UDP" then "UDP"
    else if strContains p "ICMP" then "ICMP"
    else "OTHER"

/-- Wall-clock seconds since midnight for an epoch timestamp, i.e. the value
`dt.hour*3600 + dt.minute*60 + dt.second + dt.microsecond/1e6` computed by
`normalize_time_of_day` (local timezone modelled with offset 0). -/
def timeOfDayFrom (q : ℚ) : ℚ :=
  q - 86400 * ⌊q / 86400⌋

/-- The numeric timestamps `datetime.fromtimestamp` accepts: those landing in
years 1–9999 (with the local timezone modelled at offset 0), i.e.
`-62135596800 ≤ ts < 253402300800`.  Outside this range `fromtimestamp` raises
(`ValueError` for out-of-range years, `OverflowError` beyond `time_t`). -/
def fromtimestampInRange (q : ℚ) : Bool :=
  decide (-62135596800 ≤ q) && decide (q < 253402300800)

/-- `feature_extractor.normalize_time_of_day`: `datetime.fromtimestamp(ts)`
accepts in-range numeric timestamps (int, float, bool), raises `TypeError` on
any non-numeric value, and raises `ValueError`/`OverflowError` on a numeric
value outside the representable year range. -/
def normalize_time_of_day : PyVal → Except String ℚ
  | .vInt n =>
      if fromtimestampInRange (n : ℚ) then .ok (timeOfDayFrom (n : ℚ))
      else .error "ValueError: year is out of range"
  | .vRat q =>
      if fromtimestampInRange q then .ok (timeOfDayFrom q)
      else .error "ValueError: year is out of range"
  | .vBool b =>
      if fromtimestampInRange (if b then 1 else 0) then .ok (timeOfDayFrom (if b then 1 else 0))
      else .error "ValueError: year is out of range"
  | .vNone => .error "TypeError: an integer is required"
  | .vStr _ => .error "TypeError: an integer is required"

/-- The feature record built by `extract_features`.  The address fields pass
through as raw Python values; the numeric and categorical fields are the
normalized forms. -/
structure FeatureRecord where
  src_ip : PyVal
  dst_ip : PyVal
  src_port : Int
  dst_port : Int
  protocol : String
  length : Int
  tcp_flags : String
  time_of_day : ℚ
deriving DecidableEq

/-- `feature_extractor.extract_features`.  `now` stands for `time.time()`, used
only when the `"timestamp"` key is absent.  The only field whose computation
can raise is `time_of_day` (via `normalize_time_of_day`); an exception there
propagates out of `extract_features` (modelled by `Except.error`). -/
def extract_features (now : ℚ) (pkt : PyDict) : Except String FeatureRecord :=
  let rawFlags := pktGet pkt "tcp_flags" .vNone
  match normalize_time_of_day (pktGet pkt "timestamp" (.vRat now)) with
  | .error e => .error e
  | .ok tod =>
      .ok
        { src_ip := pktGet pkt "src_ip" (.vStr "0.0.0.0")
          dst_ip := pktGet pkt "dst_ip" (.vStr "0.0.0.0")
          src_port := safe_int (pktGet pkt "src_port" (.vInt 0))
          dst_port := safe_int (pktGet pkt "dst_port" (.vInt 0))
          protocol := normalize_protocol (pktGet pkt "protocol" .vNone)
          length := safe_int (pktGet pkt "length" (.vInt 0))
          tcp_flags := if rawFlags.truthy then pyStr (pktGet pkt "tcp_flags" (.vStr "")) else ""
          time_of_day := tod }

/-! ## Mitigation (`detection_engine._handle_mitigation` and its callees) -/

/-- The address `_handle_mitigation` computes:
`ip = features.get("src_ip") or features.get("dst_ip")` — the source address if
truthy, otherwise the destination address. -/
def mitTarget (f : FeatureRecord) : PyVal :=
  if f.src_ip.truthy then f.src_ip else f.dst_ip

/-- Modelled from the spec: `apply_block` lives in `src/realtime/mitigation.py`,
which is not under `src/`.  Per the spec's MitigationPort contract,
`applyBlock(address, mode)` returns a command description; an unresolvable
address is a MitigationError, surfaced as a failure description in the
mitigation-command field. -/
def apply_block (ip : PyVal) (mode : String) : String :=
  if ip.truthy then "block " ++ pyStr ip ++ " mode=" ++ mode
  else "MitigationError: unresolvable address"

/-- The observable effect of one `_handle_mitigation` call: the addresses passed
to `add_to_blocklist`, the `(address, mode)` pairs passed to `apply_block`, and
the returned command description. -/
structure MitigationCalls where
  recordBlockCalls : List PyVal
  applyBlockCalls : List (PyVal × String)
  cmd : String
deriving DecidableEq

/-- `detection_engine._handle_mitigation`: computes the target address, then
unconditionally calls `add_to_blocklist(ip)` and `apply_block(ip, mode)` and
returns the command. -/
def handle_mitigation (mode : String) (f : FeatureRecord) : MitigationCalls :=
  let ip := mitTarget f
  ⟨[ip], [(ip, mode)], apply_block ip mode⟩

/-! ## Detection engine consumer loop (`detection_engine.DetectionEngine._run`) -/

/-- One line appended to `logs/alerts.log` by `_log_alert`. -/
inductive AlertEntry where
  | snifferError (msg : PyVal)
  | detection (src dst : PyVal) (probability : ℚ) (features : FeatureRecord)
      (mitigation_cmd : String)
deriving DecidableEq

/-- An item taken from the shared channel: `None` or a packet dict (the
sniffer only ever enqueues dicts). -/
inductive ChanItem where
  | nullItem
  | dict (d : PyDict)
deriving DecidableEq

/-- The classifier capability `Detector.predict_proba`, external to the core
(spec §1); it may raise (`Except.error`). -/
def Classifier := FeatureRecord → Except Unit ℚ

/-- Observable side effects of processing channel items: alert-log appends,
number of classifier invocations, and mitigation calls. -/
structure StepTrace where
  logAppends : List AlertEntry
  classifyCalls : Nat
  recordBlockCalls : List PyVal
  applyBlockCalls : List (PyVal × String)
deriving DecidableEq

def emptyTrace : StepTrace := ⟨[], 0, [], []⟩

def traceAppend (a b : StepTrace) : StepTrace :=
  ⟨a.logAppends ++ b.logAppends, a.classifyCalls + b.classifyCalls,
   a.recordBlockCalls ++ b.recordBlockCalls, a.applyBlockCalls ++ b.applyBlockCalls⟩

/-- Result of one loop body iteration on a received item.  `crashed = true`
means an exception escaped the loop body uncaught (there is no try/except
around `extract_features`, `predict_proba` or the mitigation/log calls), which
kills the engine thread. -/
structure StepResult where
  trace : StepTrace
  crashed : Bool
deriving DecidableEq

/-- The body of `DetectionEngine._run` for one received item:
`None` is skipped; a dict with a truthy `"__error__"` value gets one
`sniffer_error` log append; otherwise features are extracted, the classifier is
invoked, and if `prob >= threshold` mitigation runs and one detection alert is
appended. -/
def processItem (classify : Classifier) (threshold : ℚ) (mode : String) (now : ℚ) :
    ChanItem → StepResult
  | .nullItem => ⟨emptyTrace, false⟩
  | .dict pkt =>
      if (pktGet pkt "__error__" .vNone).truthy then
        ⟨⟨[.snifferError (pktGet pkt "__error__" .vNone)], 0, [], []⟩, false⟩
      else
        match extract_features now pkt with
        | .error _ => ⟨emptyTrace, true⟩
        | .ok f =>
            match classify f with
            | .error _ => ⟨⟨[], 1, [], []⟩, true⟩
            | .ok prob =>
                if threshold ≤ prob then
                  let m := handle_mitigation mode f
                  ⟨⟨[.detection f.src_ip f.dst_ip prob f m.cmd], 1,
                    m.recordBlockCalls, m.applyBlockCalls⟩, false⟩
                else ⟨⟨[], 1, [], []⟩, false⟩

/-- How a run of the consumer loop ended: still `running` (the modelled window
of iterations was exhausted), exited via the `stopped` flag, or `crashed`
because an exception escaped the loop body. -/
inductive LoopExit where
  | running
  | stopped
  | crashed
deriving DecidableEq

/-- Result of a bounded window of consumer-loop iterations. -/
structure RunResult where
  trace : StepTrace
  consumed : Nat
  exit : LoopExit
deriving DecidableEq

/-- `DetectionEngine._run`, iteration-indexed: at iteration `t` the loop first
checks the stop event (`while not self._stop_event.is_set()`); if clear it
performs one `in_q.get(timeout=1.0)`, where `recv t = none` models
`queue.Empty` (the loop then `continue`s) and `recv t = some item` models a
received item.  Each iteration therefore spans at most one receive-timeout
interval.  `fuel` bounds the window of iterations modelled. -/
def engineRun (classify : Classifier) (threshold : ℚ) (mode : String) (now : ℚ)
    (stopAt : Nat → Bool) (recv : Nat → Option ChanItem) : Nat → Nat → RunResult
  | 0, _ => ⟨emptyTrace, 0, .running⟩
  | fuel + 1, t =>
      if stopAt t then ⟨emptyTrace, 0, .stopped⟩
      else
        match recv t with
        | none => engineRun classify threshold mode now stopAt recv fuel (t + 1)
        | some item =>
            let r := processItem classify threshold mode now item
            if r.crashed then ⟨r.trace, 1, .crashed⟩
            else
              let rest := engineRun classify threshold mode now stopAt recv fuel (t + 1)
              ⟨traceAppend r.trace rest.trace, 1 + rest.consumed, rest.exit⟩

/-- The receive timeout of the consumer loop: `self.in_q.get(timeout=1.0)`,
in seconds. -/
def engineReceiveTimeout : ℚ := 1

/-- Channel feed drawn from a finite list of pending items. -/
def recvOfList (items : List ChanItem) : Nat → Option ChanItem :=
  fun t => items[t]?

/-- Run of the consumer over a finite item list, no stop signal during the
window. -/
def engineRunList (classify : Classifier) (threshold : ℚ) (mode : String) (now : ℚ)
    (items : List ChanItem) : RunResult :=
  engineRun classify threshold mode now (fun _ => false) (recvOfList items)
    (items.length + 1) 0

/-! ## Packet source, pcap branch (`packet_sniffer.start_sniff`, `_scapy_to_dict`) -/

/-- The layers of a scapy packet that `_scapy_to_dict` inspects: an optional IP
layer carrying `(src, dst)`, optional TCP `(sport, dport, flags)`, optional UDP
`(sport, dport)`, an ICMP flag, and the packet length. -/
structure ScapyPacket where
  ipLayer : Option (String × String)
  tcp : Option (Int × Int × String)
  udp : Option (Int × Int)
  icmp : Bool
  pktLen : Int
deriving DecidableEq

/-- `packet_sniffer._scapy_to_dict`: builds the packet dict.  When the packet
has no IP layer, `ip.src` raises `AttributeError`, the broad `except` catches
it and the function returns `None`.  `now` stands for `time.time()`. -/
def scapy_to_dict (now : ℚ) (p : ScapyPacket) : Option PyDict :=
  match p.ipLayer with
  | none => none
  | some (src, dst) =>
      let proto :=
        match p.tcp, p.udp with
        | some (s, d, fl), _ => ("TCP", s, d, fl)
        | none, some (s, d) => ("UDP", s, d, "")
        | none, none => if p.icmp then ("ICMP", 0, 0, "") else ("OTHER", 0, 0, "")
      some [("src_ip", .vStr src), ("dst_ip", .vStr dst),
            ("src_port", .vInt proto.2.1), ("dst_port", .vInt proto.2.2.1),
            ("protocol", .vStr proto.1), ("length", .vInt p.pktLen),
            ("tcp_flags", .vStr proto.2.2.2), ("timestamp", .vRat now)]

/-- A dict carrying the `"__error__"` sentinel, as enqueued by the sniffer. -/
def errDict (msg : String) : PyDict := [("__error__", .vStr msg)]

/-- The corresponding channel item. -/
def errItem (msg : String) : ChanItem := .dict (errDict msg)

/-- The pcap branch of `packet_sniffer.start_sniff` (`mode == "pcap"`, with
scapy importable), as the sequence of items it puts into the channel:
no path → one error item; `rdpcap` failure → one error item; otherwise replay
of the records, skipping those whose conversion returns `None`.  `rd` stands
for `rdpcap`; `stopSet` models the stop event's state during the replay loop
(`if stop_event.is_set(): break`). -/
def start_sniff_pcap (now : ℚ) (pcap : Option String)
    (rd : String → Except String (List ScapyPacket)) (stopSet : Bool) : List ChanItem :=
  match pcap with
  | none => [errItem "pcap mode selected but no pcap path provided"]
  | some path =>
      match rd path with
      | .error e => [errItem ("failed to read pcap: " ++ e)]
      | .ok packets =>
          if stopSet then []
          else (packets.filterMap (scapy_to_dict now)).map ChanItem.dict

/-! ## The shared channel (`app.py main`, Python `queue.Queue` semantics) -/

/-- Python `queue.Queue()`'s default `maxsize`. -/
def queue_default_maxsize : Int := 0

/-- The channel the entry point creates: `pkt_q = queue.Queue()` (`app.py`,
`main`), i.e. with the default maxsize. -/
def main_pkt_q_maxsize : Int := queue_default_maxsize

/-- Python `queue.Queue` semantics: a queue bounds its size only when
`maxsize > 0`; `maxsize <= 0` means infinite capacity. -/
def queue_is_bounded (maxsize : Int) : Bool :=
  decide (0 < maxsize)

/-- Python `queue.Queue.put(item)` (blocking, no timeout) blocks exactly when
the queue is bounded and currently holds at least `maxsize` items. -/
def queue_put_blocks (maxsize : Int) (qsize : Nat) : Bool :=
  decide (0 < maxsize) && decide (maxsize ≤ (qsize : Int))

/-! ## Helper lemmas -/

lemma truthy_vStr_append_left (p e : String) (h : p.length ≠ 0) :
    PyVal.truthy (.vStr (p ++ e)) = true := by
  simp [PyVal.truthy, String.length_append, bne_iff_ne]
  omega

lemma length_filterMap_eq_countP {α β : Type} (f : α → Option β) (l : List α) :
    (l.filterMap f).length = l.countP (fun a => (f a).isSome) := by
  induction l with
  | nil => rfl
  | cons a l ih =>
      cases h : f a <;> simp [List.filterMap_cons, h, List.countP_cons, ih]

lemma scapy_to_dict_isSome (now : ℚ) (p : ScapyPacket) :
    (scapy_to_dict now p).isSome = p.ipLayer.isSome := by
  cases h : p.ipLayer with
  | none => simp [scapy_to_dict, h]
  | some pr => obtain ⟨a, b⟩ := pr; simp [scapy_to_dict, h]

lemma extract_features_src_dst (now : ℚ) (pkt : PyDict) (f : FeatureRecord)
    (hex : extract_features now pkt = .ok f) :
    f.src_ip = pktGet pkt "src_ip" (.vStr "0.0.0.0")
    ∧ f.dst_ip = pktGet pkt "dst_ip" (.vStr "0.0.0.0") := by
  unfold extract_features at hex
  split at hex
  · exact absurd hex (by simp)
  · injection hex with h
    subst h
    exact ⟨rfl, rfl⟩

/-! ## Claims -/

/-- C1: for a non-error, non-None observation processed by the consumer loop
whose classifier probability is `prob`, if `prob ≥ threshold` exactly one alert
record is appended to the alert log, and if `prob < threshold` zero records are
appended and no mitigation call is made (the alert sink is not touched). -/
theorem C1_alert_append_iff_threshold (prob threshold now : ℚ) (mode : String)
    (pkt : PyDict) (f : FeatureRecord)
    (herr : (pktGet pkt "__error__" .vNone).truthy = false)
    (hex : extract_features now pkt = .ok f) :
    (threshold ≤ prob →
      (processItem (fun _ => .ok prob) threshold mode now (.dict pkt)).trace.logAppends.length = 1
      ∧ (processItem (fun _ => .ok prob) threshold mode now (.dict pkt)).crashed = false)
    ∧ (prob < threshold →
      (processItem (fun _ => .ok prob) threshold mode now (.dict pkt)).trace.logAppends = []
      ∧ (processItem (fun _ => .ok prob) threshold mode now (.dict pkt)).trace.recordBlockCalls = []
      ∧ (processItem (fun _ => .ok prob) threshold mode now (.dict pkt)).trace.applyBlockCalls = []
      ∧ (processItem (fun _ => .ok prob) threshold mode now (.dict pkt)).crashed = false) := by
  constructor
  · intro h
    simp [processItem, herr, hex, h]
  · intro h
    simp [processItem, herr, hex, not_le.mpr h]

/-- C1 witness: with an empty packet dict, classifier probability 1 against
threshold 0 appends exactly one alert; probability 0 against threshold 1
appends nothing. -/
theorem C1_alert_append_iff_threshold_witness :
    (processItem (fun _ => .ok (1 : ℚ)) 0 "dry-run" 0 (.dict [])).trace.logAppends.length = 1
    ∧ (processItem (fun _ => .ok (0 : ℚ)) 1 "dry-run" 0 (.dict [])).trace.logAppends = [] := by
  constructor
  · exact ((C1_alert_append_iff_threshold 1 0 0 "dry-run" []
      ⟨.vStr "0.0.0.0", .vStr "0.0.0.0", 0, 0, "OTHER", 0, "", timeOfDayFrom 0⟩
      rfl rfl).1 (by norm_num)).1
  · exact ((C1_alert_append_iff_threshold 0 1 0 "dry-run" []
      ⟨.vStr "0.0.0.0", .vStr "0.0.0.0", 0, 0, "OTHER", 0, "", timeOfDayFrom 0⟩
      rfl rfl).2 (by norm_num)).1

/-- The shape of the `"timestamp"` entry under which `datetime.fromtimestamp`
accepts the value: absent (the engine then passes `time.time()`, an in-range
clock value), or a numeric value (int, float, bool) within `fromtimestamp`'s
representable range. -/
def timestampAcceptable (pkt : PyDict) : Bool :=
  match List.lookup "timestamp" pkt with
  | none => true
  | some (.vInt n) => fromtimestampInRange (n : ℚ)
  | some (.vRat q) => fromtimestampInRange q
  | some (.vBool b) => fromtimestampInRange (if b then 1 else 0)
  | some _ => false

/-- C2 counterexample: `extract_features` is not total on arbitrary dicts — a
packet whose `"timestamp"` field is a string raises an uncaught `TypeError`
from `datetime.fromtimestamp` (and an out-of-range numeric timestamp raises a
`ValueError`), contradicting "never raises". -/
theorem C2_nonnumeric_timestamp_raises :
    extract_features 0 [("timestamp", .vStr "later")] =
      .error "TypeError: an integer is required"
    ∧ extract_features 0 [("timestamp", .vInt 300000000000)] =
      .error "ValueError: year is out of range" := by
  exact ⟨rfl, rfl⟩

/-- C2 (amended): given an in-range clock value for the missing-timestamp
default, `extract_features` succeeds — returning a fully populated feature
record with safe defaults — exactly when the `"timestamp"` field is absent or
an in-range numeric value; a present non-numeric timestamp raises `TypeError`
and an out-of-range numeric one raises `ValueError`/`OverflowError`. -/
theorem C2_total_iff_timestamp_acceptable (now : ℚ) (pkt : PyDict)
    (hnow : fromtimestampInRange now = true) :
    (∃ f, extract_features now pkt = .ok f) ↔ timestampAcceptable pkt = true := by
  cases h : List.lookup "timestamp" pkt with
  | none =>
      simp [extract_features, timestampAcceptable, pktGet, h, normalize_time_of_day, hnow]
  | some v =>
      cases v with
      | vNone =>
          simp [extract_features, timestampAcceptable, pktGet, h, normalize_time_of_day]
      | vStr s =>
          simp [extract_features, timestampAcceptable, pktGet, h, normalize_time_of_day]
      | vBool b =>
          cases hc : fromtimestampInRange (if b then 1 else 0) <;>
            simp [extract_features, timestampAcceptable, pktGet, h, normalize_time_of_day, hc]
      | vInt n =>
          cases hc : fromtimestampInRange (n : ℚ) <;>
            simp [extract_features, timestampAcceptable, pktGet, h, normalize_time_of_day, hc]
      | vRat q =>
          cases hc : fromtimestampInRange q <;>
            simp [extract_features, timestampAcceptable, pktGet, h, normalize_time_of_day, hc]

/-- C2 witness: with the clock at epoch 0 (in range), a packet with the
in-range numeric timestamp 100 extracts successfully, and one with timestamp
300000000000 (year > 9999) does not. -/
theorem C2_total_iff_timestamp_acceptable_witness :
    (∃ f, extract_features 0 [("timestamp", .vInt 100)] = .ok f)
    ∧ ¬ (∃ f, extract_features 0 [("timestamp", .vInt 300000000000)] = .ok f) := by
  constructor
  · exact (C2_total_iff_timestamp_acceptable 0 [("timestamp", .vInt 100)] (by decide)).mpr
      (by decide)
  · intro hf
    have h := (C2_total_iff_timestamp_acceptable 0 [("timestamp", .vInt 300000000000)]
      (by decide)).mp hf
    exact absurd h (by decide)

/-- C3 counterexample: with a classifier that always raises, the consumer run
over one normal observation ends `crashed` (the engine thread dies) with zero
diagnostic log entries — the failure is not surfaced as a diagnostic alert and
the loop does not continue. -/
theorem C3_classifier_raise_crashes_loop :
    (engineRunList (fun _ => .error ()) (1/2) "dry-run" 0 [.dict []]).exit = .crashed
    ∧ (engineRunList (fun _ => .error ()) (1/2) "dry-run" 0 [.dict []]).trace.logAppends = []
    ∧ (engineRunList (fun _ => .error ()) (1/2) "dry-run" 0 [.dict []]).trace.recordBlockCalls = [] := by
  decide

/-- C3 (amended): an exception raised by the classifier propagates uncaught out
of the consumer loop: the run ends `crashed` after consuming only that one
observation, with no log append, no mitigation call, and no subsequent
observation processed. -/
theorem C3_classifier_raise_kills_engine (threshold now : ℚ) (mode : String)
    (pkt : PyDict) (f : FeatureRecord) (rest : List ChanItem) (fuel : Nat)
    (herr : (pktGet pkt "__error__" .vNone).truthy = false)
    (hex : extract_features now pkt = .ok f) :
    engineRun (fun _ => .error ()) threshold mode now (fun _ => false)
      (recvOfList (.dict pkt :: rest)) (fuel + 1) 0 = ⟨⟨[], 1, [], []⟩, 1, .crashed⟩ := by
  simp [engineRun, recvOfList, processItem, herr, hex]

/-- C3 witness: concrete two-item channel; the crash happens on the first item
and the second is never consumed. -/
theorem C3_classifier_raise_kills_engine_witness :
    engineRun (fun _ => .error ()) (1/2) "dry-run" 0 (fun _ => false)
      (recvOfList [.dict [], .dict []]) 6 0 = ⟨⟨[], 1, [], []⟩, 1, .crashed⟩ :=
  C3_classifier_raise_kills_engine (1/2) 0 "dry-run" []
    ⟨.vStr "0.0.0.0", .vStr "0.0.0.0", 0, 0, "OTHER", 0, "", timeOfDayFrom 0⟩
    [.dict []] 5 rfl rfl

/-- C4 counterexample: the channel the entry point creates (`queue.Queue()`)
is unbounded, and a put into it does not block even with a million items
queued — there is no fixed capacity and no backpressure. -/
theorem C4_channel_unbounded_cex :
    queue_is_bounded main_pkt_q_maxsize = false
    ∧ queue_put_blocks main_pkt_q_maxsize 1000000 = false := by
  decide

/-- C4 (amended): the shared channel is created with `queue.Queue()`'s default
`maxsize` of 0, which Python's queue semantics treat as infinite capacity: the
producer's put never blocks at any queue size, so there is no backpressure and
queue memory can grow without bound under sustained production. -/
theorem C4_put_never_blocks :
    queue_is_bounded main_pkt_q_maxsize = false
    ∧ ∀ qsize : Nat, queue_put_blocks main_pkt_q_maxsize qsize = false := by
  refine ⟨rfl, fun qsize => ?_⟩
  simp [queue_put_blocks, main_pkt_q_maxsize, queue_default_maxsize]

/-- C5 counterexample: with neither address resolvable (both empty strings),
`_handle_mitigation` still calls `add_to_blocklist` once and `apply_block`
once — mitigation is not skipped. -/
theorem C5_mitigation_not_skipped_cex :
    (handle_mitigation "dry-run" ⟨.vStr "", .vStr "", 0, 0, "OTHER", 0, "", 0⟩).recordBlockCalls.length = 1
    ∧ (handle_mitigation "dry-run" ⟨.vStr "", .vStr "", 0, 0, "OTHER", 0, "", 0⟩).applyBlockCalls.length = 1 := by
  decide

/-- C5 (amended): when the probability meets the threshold, the mitigation
target is the source address if truthy, otherwise the destination address, and
`add_to_blocklist` and `apply_block` are each invoked exactly once with that
target — even when neither address is resolvable (no skip, no "no target"
indicator); the alert's mitigation-command field carries `apply_block`'s
return value. -/
theorem C5_mitigation_always_invoked (prob threshold now : ℚ) (mode : String)
    (pkt : PyDict) (f : FeatureRecord)
    (herr : (pktGet pkt "__error__" .vNone).truthy = false)
    (hex : extract_features now pkt = .ok f)
    (hp : threshold ≤ prob) :
    (processItem (fun _ => .ok prob) threshold mode now (.dict pkt)).trace.recordBlockCalls = [mitTarget f]
    ∧ (processItem (fun _ => .ok prob) threshold mode now (.dict pkt)).trace.applyBlockCalls = [(mitTarget f, mode)]
    ∧ (processItem (fun _ => .ok prob) threshold mode now (.dict pkt)).trace.logAppends =
        [.detection f.src_ip f.dst_ip prob f (apply_block (mitTarget f) mode)] := by
  simp [processItem, herr, hex, hp, handle_mitigation]

/-- C5 witness: a packet whose addresses are both empty strings still gets a
blocklist call and an apply call, with the unresolvable empty target. -/
theorem C5_mitigation_always_invoked_witness :
    (processItem (fun _ => .ok (1 : ℚ)) (1/2) "dry-run" 0
      (.dict [("src_ip", .vStr ""), ("dst_ip", .vStr "")])).trace.recordBlockCalls = [.vStr ""]
    ∧ (processItem (fun _ => .ok (1 : ℚ)) (1/2) "dry-run" 0
      (.dict [("src_ip", .vStr ""), ("dst_ip", .vStr "")])).trace.applyBlockCalls = [(.vStr "", "dry-run")] := by
  have h := C5_mitigation_always_invoked 1 (1/2) 0 "dry-run"
    [("src_ip", .vStr ""), ("dst_ip", .vStr "")]
    ⟨.vStr "", .vStr "", 0, 0, "OTHER", 0, "", timeOfDayFrom 0⟩
    rfl rfl (by norm_num)
  exact ⟨by rw [h.1]; rfl, by rw [h.2.1]; rfl⟩

/-- C6: an item from the channel carrying a truthy `"__error__"` value causes
exactly one `sniffer_error` diagnostic append, zero classifier invocations and
zero mitigation calls, and the loop continues (no crash). -/
theorem C6_error_item_one_diagnostic (classify : Classifier) (threshold now : ℚ)
    (mode : String) (pkt : PyDict)
    (herr : (pktGet pkt "__error__" .vNone).truthy = true) :
    processItem classify threshold mode now (.dict pkt) =
      ⟨⟨[.snifferError (pktGet pkt "__error__" .vNone)], 0, [], []⟩, false⟩ := by
  simp [processItem, herr]

/-- C6 witness: a concrete sniffer-error dict yields exactly the one
diagnostic append. -/
theorem C6_error_item_one_diagnostic_witness :
    processItem (fun _ => .ok 0) (7/10) "dry-run" 0 (.dict (errDict "scapy not available")) =
      ⟨⟨[.snifferError (pktGet (errDict "scapy not available") "__error__" .vNone)], 0, [], []⟩, false⟩ :=
  C6_error_item_one_diagnostic (fun _ => .ok 0) (7/10) 0 "dry-run"
    (errDict "scapy not available") (by decide)

/-- C7: in pcap mode, when `rdpcap` fails on the given path (nonexistent or
unparsable artifact), the source emits exactly one acquisition-error item and
terminates; the consumer run over that emission makes zero classifier
invocations and logs it as the one `sniffer_error` diagnostic. -/
theorem C7_unreadable_pcap_single_error (now threshold : ℚ) (mode : String)
    (classify : Classifier) (path e : String)
    (rd : String → Except String (List ScapyPacket))
    (hrd : rd path = .error e) :
    start_sniff_pcap now (some path) rd false = [errItem ("failed to read pcap: " ++ e)]
    ∧ (engineRunList classify threshold mode now
        [errItem ("failed to read pcap: " ++ e)]).trace.classifyCalls = 0
    ∧ (engineRunList classify threshold mode now
        [errItem ("failed to read pcap: " ++ e)]).trace.logAppends =
        [.snifferError (.vStr ("failed to read pcap: " ++ e))] := by
  have hmsg : PyVal.truthy (.vStr ("failed to read pcap: " ++ e)) = true :=
    truthy_vStr_append_left "failed to read pcap: " e (by decide)
  refine ⟨by simp [start_sniff_pcap, hrd], ?_, ?_⟩ <;>
    simp [engineRunList, engineRun, recvOfList, processItem, errItem, errDict,
      pktGet, hmsg, traceAppend, emptyTrace]

/-- C7 witness: a stub `rdpcap` failing with "No such file" produces the single
error item and a consumer run with zero classifier calls. -/
theorem C7_unreadable_pcap_single_error_witness :
    start_sniff_pcap 0 (some "missing.pcap") (fun _ => .error "No such file") false =
      [errItem ("failed to read pcap: " ++ "No such file")]
    ∧ (engineRunList (fun _ => .ok 0) (7/10) "dry-run" 0
        [errItem ("failed to read pcap: " ++ "No such file")]).trace.classifyCalls = 0 := by
  have h := C7_unreadable_pcap_single_error 0 (7/10) "dry-run" (fun _ => .ok 0)
    "missing.pcap" "No such file" (fun _ => .error "No such file") rfl
  exact ⟨h.1, h.2.1⟩

/-- C8: the receive timeout is the fixed constant 1.0s, and once the stop
signal is set (and stays set — the event is never cleared), the consumer loop
exits at its very next stop check without receiving or consuming anything:
the at-most-one in-flight receive, bounded by the timeout, is the only delay.
The same holds from any later iteration, so a stopped engine restarted into
its loop consumes nothing (not restartable). -/
theorem C8_stop_exits_without_consuming (classify : Classifier)
    (threshold now : ℚ) (mode : String) (stopAt : Nat → Bool)
    (recv : Nat → Option ChanItem) (t : Nat)
    (hstop : ∀ u, t ≤ u → stopAt u = true) :
    engineReceiveTimeout = 1
    ∧ ∀ fuel u, t ≤ u →
        engineRun classify threshold mode now stopAt recv (fuel + 1) u =
          ⟨emptyTrace, 0, .stopped⟩ := by
  refine ⟨rfl, fun fuel u hu => ?_⟩
  simp [engineRun, hstop u hu]

/-- C8 witness: with the stop event set from the start and items pending, the
loop exits immediately, consuming zero items. -/
theorem C8_stop_exits_without_consuming_witness :
    engineRun (fun _ => .ok 0) (7/10) "dry-run" 0 (fun _ => true)
      (recvOfList [.dict []]) 4 0 = ⟨emptyTrace, 0, .stopped⟩ :=
  (C8_stop_exits_without_consuming (fun _ => .ok 0) (7/10) 0 "dry-run"
    (fun _ => true) (recvOfList [.dict []]) 0 (fun _ _ => rfl)).2 3 0 (Nat.le_refl 0)

/-- C9 counterexample: a capture artifact holding one record without an IP
layer is replayed as zero channel items — the record is silently omitted,
contradicting "replays every record of the artifact exactly once". -/
theorem C9_unconvertible_record_dropped_cex :
    start_sniff_pcap 0 (some "capture.pcap")
      (fun _ => .ok [⟨none, none, none, false, 60⟩]) false = [] := rfl

/-- C9 (amended): when `rdpcap` succeeds and the stop signal is clear, the
source replays, in artifact order and exactly once each, precisely the records
whose conversion succeeds (those with an IP layer); records whose conversion
returns `None` are silently omitted, and then the sequence terminates. -/
theorem C9_replays_convertible_records (now : ℚ) (path : String)
    (rd : String → Except String (List ScapyPacket)) (packets : List ScapyPacket)
    (hrd : rd path = .ok packets) :
    start_sniff_pcap now (some path) rd false =
      (packets.filterMap (scapy_to_dict now)).map ChanItem.dict
    ∧ (start_sniff_pcap now (some path) rd false).length =
        packets.countP (fun p => p.ipLayer.isSome) := by
  have h1 : start_sniff_pcap now (some path) rd false =
      (packets.filterMap (scapy_to_dict now)).map ChanItem.dict := by
    simp [start_sniff_pcap, hrd]
  refine ⟨h1, ?_⟩
  rw [h1, List.length_map, length_filterMap_eq_countP]
  exact List.countP_congr (fun p _ => by rw [scapy_to_dict_isSome])

/-- C9 witness: an artifact with one convertible and one unconvertible record
replays exactly one item. -/
theorem C9_replays_convertible_records_witness :
    (start_sniff_pcap 0 (some "demo.pcap")
      (fun _ => .ok [⟨some ("192.0.2.1", "198.51.100.2"), some (1024, 80, "S"), none, false, 60⟩,
                     ⟨none, none, none, false, 60⟩]) false).length = 1 := by
  have h := C9_replays_convertible_records 0 "demo.pcap"
    (fun _ => .ok [⟨some ("192.0.2.1", "198.51.100.2"), some (1024, 80, "S"), none, false, 60⟩,
                   ⟨none, none, none, false, 60⟩])
    [⟨some ("192.0.2.1", "198.51.100.2"), some (1024, 80, "S"), none, false, 60⟩,
     ⟨none, none, none, false, 60⟩] rfl
  rw [h.2]
  decide

/-- C10 counterexample: a packet dict with empty-string address fields passes
them through unchanged — the extracted source address is the empty string (not
a non-empty string) and the mitigation target computed from the record is not
resolvable. -/
theorem C10_empty_address_passthrough_cex :
    extract_features 0 [("src_ip", .vStr ""), ("dst_ip", .vStr "")] =
      .ok ⟨.vStr "", .vStr "", 0, 0, "OTHER", 0, "", timeOfDayFrom 0⟩
    ∧ (mitTarget ⟨.vStr "", .vStr "", 0, 0, "OTHER", 0, "", timeOfDayFrom 0⟩).truthy = false := by
  exact ⟨rfl, rfl⟩

/-- C10 (amended): `extract_features` defaults the address fields to
`"0.0.0.0"` only when the corresponding key is absent from the input dict; in
that case both fields are that non-empty string and the mitigation target is
resolvable.  (Present values pass through unchanged, so a present falsy value
still yields an unresolvable target — see the counterexample.) -/
theorem C10_absent_keys_default_resolvable (now : ℚ) (pkt : PyDict)
    (f : FeatureRecord)
    (h1 : List.lookup "src_ip" pkt = none)
    (h2 : List.lookup "dst_ip" pkt = none)
    (hex : extract_features now pkt = .ok f) :
    f.src_ip = .vStr "0.0.0.0" ∧ f.dst_ip = .vStr "0.0.0.0"
    ∧ (mitTarget f).truthy = true := by
  obtain ⟨hs, hd⟩ := extract_features_src_dst now pkt f hex
  rw [pktGet, h1] at hs
  rw [pktGet, h2] at hd
  refine ⟨hs, hd, ?_⟩
  rw [mitTarget, hs, hd]
  decide

/-- C10 witness: the empty packet dict extracts with both addresses defaulted
to `"0.0.0.0"` and a resolvable mitigation target. -/
theorem C10_absent_keys_default_resolvable_witness :
    (⟨.vStr "0.0.0.0", .vStr "0.0.0.0", 0, 0, "OTHER", 0, "", timeOfDayFrom 0⟩ : FeatureRecord).src_ip = .vStr "0.0.0.0"
    ∧ (⟨.vStr "0.0.0.0", .vStr "0.0.0.0", 0, 0, "OTHER", 0, "", timeOfDayFrom 0⟩ : FeatureRecord).dst_ip = .vStr "0.0.0.0"
    ∧ (mitTarget ⟨.vStr "0.0.0.0", .vStr "0.0.0.0", 0, 0, "OTHER", 0, "", timeOfDayFrom 0⟩).truthy = true :=
  C10_absent_keys_default_resolvable 0 []
    ⟨.vStr "0.0.0.0", .vStr "0.0.0.0", 0, 0, "OTHER", 0, "", timeOfDayFrom 0⟩
    rfl rfl rfl
